import Mathlib

/-
Verification of the Kimi-API client library (kimiai package): a shallow
embedding of the event-stream decoder (kimiai/chat.py) and of the engine
(kimiai/engine.py: cookie authentication, request wrapper, chat creation,
file upload pipeline, close), together with theorems settling the spec
claims about them.  External collaborators (the curl_cffi transport, the
filesystem, the cookie-jar parser) are passed in as explicit environments;
randomized per-session identifiers are parameters.
-/

namespace KimiSpec

/-- JSON values, the image of Python json.loads. Numbers are kept exactly as
mantissa times 10 to the exp10 (integers have exp10 = 0), and the float
constants NaN, Infinity and -Infinity that json.loads accepts by default are
symbolic, so no floating-point arithmetic enters the model. -/
inductive Json where
| null : Json
| bool (b : Bool) : Json
| num (mantissa : Int) (exp10 : Int) : Json
| nan : Json
| inf : Json
| negInf : Json
| str (s : String) : Json
| arr (items : List Json) : Json
| obj (fields : List (String × Json)) : Json

/-- Whether a JSON value is an object (a Python dict after json.loads). -/
def Json.isObj : Json → Bool
| .obj _ => true
| _ => false

/-- Python dict lookup on a parsed JSON object: with duplicate keys,
json.loads keeps the last occurrence. -/
def assocGetLast (kvs : List (String × Json)) (k : String) : Option Json :=
  kvs.foldl (fun acc p => if p.1 = k then some p.2 else acc) none

def isDigitChar (c : Char) : Bool := 48 ≤ c.toNat && c.toNat ≤ 57

def digitsSpan (cs : List Char) : List Char × List Char :=
  (cs.takeWhile isDigitChar, cs.dropWhile isDigitChar)

def digitsToNat (ds : List Char) : Nat :=
  ds.foldl (fun a c => a * 10 + (c.toNat - 48)) 0

def hexVal (c : Char) : Option Nat :=
  if 48 ≤ c.toNat && c.toNat ≤ 57 then some (c.toNat - 48)
  else if 97 ≤ c.toNat && c.toNat ≤ 102 then some (c.toNat - 87)
  else if 65 ≤ c.toNat && c.toNat ≤ 70 then some (c.toNat - 55)
  else none

/-- The opening curly brace character. -/
def lbrace : Char := Char.ofNat 123

/-- The closing curly brace character. -/
def rbrace : Char := Char.ofNat 125

/-- JSON insignificant whitespace (space, tab, line feed, carriage return). -/
def skipJsonWs (cs : List Char) : List Char :=
  cs.dropWhile (fun c => c = ' ' || c = '\t' || c = '\n' || c = '\r')

/-- Decode one backslash escape of a JSON string (the backslash is already
consumed). -/
def unescape : List Char → Option (Char × List Char)
| [] => none
| e :: rest =>
  if e = '"' then some ('"', rest)
  else if e = '\\' then some ('\\', rest)
  else if e = '/' then some ('/', rest)
  else if e = 'b' then some (Char.ofNat 8, rest)
  else if e = 'f' then some (Char.ofNat 12, rest)
  else if e = 'n' then some ('\n', rest)
  else if e = 'r' then some ('\r', rest)
  else if e = 't' then some ('\t', rest)
  else if e = 'u' then
    match rest with
    | h1 :: h2 :: h3 :: h4 :: rest4 =>
      match hexVal h1, hexVal h2, hexVal h3, hexVal h4 with
      | some a, some b, some c, some d =>
        some (Char.ofNat (((a * 16 + b) * 16 + c) * 16 + d), rest4)
      | _, _, _, _ => none
    | _ => none
  else none

/-- Parse the body of a JSON string after the opening quote; the fuel bounds
recursion and any value at least the input length suffices. -/
def pStrBody (fuel : Nat) (cs : List Char) : Option (List Char × List Char) :=
  match fuel with
  | 0 => none
  | f + 1 =>
    match cs with
    | [] => none
    | c :: rest =>
      if c = '"' then some ([], rest)
      else if c = '\\' then
        match unescape rest with
        | none => none
        | some (ch, rest2) =>
          match pStrBody f rest2 with
          | none => none
          | some (s, r) => some (ch :: s, r)
      else if c.toNat < 32 then none
      else
        match pStrBody f rest with
        | none => none
        | some (s, r) => some (c :: s, r)

/-- Parse a JSON number: sign, integer part with no leading zeros, optional
fraction and exponent. -/
def pNum (cs : List Char) : Option (Json × List Char) :=
  let signStep : Bool × List Char :=
    match cs with
    | '-' :: t => (true, t)
    | _ => (false, cs)
  let neg := signStep.1
  let cs1 := signStep.2
  let (ip, r1) := digitsSpan cs1
  if ip.isEmpty then none
  else if 1 < ip.length && ip.headD '0' = '0' then none
  else
    let fracStep : Option (Nat × Nat × List Char) :=
      match r1 with
      | '.' :: t =>
        let (fd, r) := digitsSpan t
        if fd.isEmpty then none
        else some (digitsToNat ip * 10 ^ fd.length + digitsToNat fd, fd.length, r)
      | _ => some (digitsToNat ip, 0, r1)
    match fracStep with
    | none => none
    | some (mant, fracLen, r2) =>
      let expStep : Option (Int × List Char) :=
        match r2 with
        | e :: t =>
          if e = 'e' || e = 'E' then
            let signExp : Int × List Char :=
              match t with
              | '+' :: u => (1, u)
              | '-' :: u => (-1, u)
              | _ => (1, t)
            let (ed, r3) := digitsSpan signExp.2
            if ed.isEmpty then none else some (signExp.1 * (digitsToNat ed : Int), r3)
          else some (0, r2)
        | [] => some (0, [])
      match expStep with
      | none => none
      | some (ex, r3) =>
        some (.num (if neg then -(mant : Int) else (mant : Int)) (ex - (fracLen : Int)), r3)

mutual

/-- Parse one JSON value; the fuel bounds nesting depth and the input length
plus one always suffices. -/
def pValue (fuel : Nat) (cs : List Char) : Option (Json × List Char) :=
  match fuel with
  | 0 => none
  | f + 1 =>
    match skipJsonWs cs with
    | [] => none
    | c :: rest =>
      if c = '"' then
        match pStrBody (rest.length + 1) rest with
        | none => none
        | some (s, r) => some (.str (String.mk s), r)
      else if c = lbrace then
        match skipJsonWs rest with
        | d :: rest2 =>
          if d = rbrace then some (.obj [], rest2)
          else
            match pObjFields f rest with
            | none => none
            | some (fs, r) => some (.obj fs, r)
        | [] => none
      else if c = '[' then
        match skipJsonWs rest with
        | ']' :: rest2 => some (.arr [], rest2)
        | _ =>
          match pArrItems f rest with
          | none => none
          | some (items, r) => some (.arr items, r)
      else if c = 't' then
        if ['r', 'u', 'e'].isPrefixOf rest then some (.bool true, rest.drop 3) else none
      else if c = 'f' then
        if ['a', 'l', 's', 'e'].isPrefixOf rest then some (.bool false, rest.drop 4) else none
      else if c = 'n' then
        if ['u', 'l', 'l'].isPrefixOf rest then some (.null, rest.drop 3) else none
      else if c = 'N' then
        if ['a', 'N'].isPrefixOf rest then some (.nan, rest.drop 2) else none
      else if c = 'I' then
        if ['n', 'f', 'i', 'n', 'i', 't', 'y'].isPrefixOf rest then some (.inf, rest.drop 7)
        else none
      else if c = '-' || isDigitChar c then
        match pNum (c :: rest) with
        | some vr => some vr
        | none =>
          if c = '-' && ['I', 'n', 'f', 'i', 'n', 'i', 't', 'y'].isPrefixOf rest then
            some (.negInf, rest.drop 8)
          else none
      else none

/-- Parse the members of a JSON object after the opening brace (at least one
member, ending at the closing brace). -/
def pObjFields (fuel : Nat) (cs : List Char) : Option (List (String × Json) × List Char) :=
  match fuel with
  | 0 => none
  | f + 1 =>
    match skipJsonWs cs with
    | '"' :: rest =>
      match pStrBody (rest.length + 1) rest with
      | none => none
      | some (k, r1) =>
        match skipJsonWs r1 with
        | ':' :: r2 =>
          match pValue f r2 with
          | none => none
          | some (v, r3) =>
            match skipJsonWs r3 with
            | ',' :: r4 =>
              match pObjFields f r4 with
              | none => none
              | some (fs, r5) => some ((String.mk k, v) :: fs, r5)
            | d :: r4 =>
              if d = rbrace then some ([(String.mk k, v)], r4) else none
            | [] => none
        | _ => none
    | _ => none

/-- Parse the items of a JSON array after the opening bracket (at least one
item, ending at the closing bracket). -/
def pArrItems (fuel : Nat) (cs : List Char) : Option (List Json × List Char) :=
  match fuel with
  | 0 => none
  | f + 1 =>
    match pValue f cs with
    | none => none
    | some (v, r1) =>
      match skipJsonWs r1 with
      | ',' :: r2 =>
        match pArrItems f r2 with
        | none => none
        | some (items, r3) => some (v :: items, r3)
      | ']' :: r2 => some ([v], r2)
      | _ => none

end

/-- Model of Python json.loads with its default settings, including the
acceptance of the non-standard constants NaN, Infinity and -Infinity:
returns none exactly on parse failure (json.JSONDecodeError). -/
def Json.parse (s : String) : Option Json :=
  match pValue (s.data.length + 1) s.data with
  | none => none
  | some (v, r) => if skipJsonWs r = [] then some v else none

/-- Python str.strip() whitespace: every code point CPython's
Py_UNICODE_ISSPACE accepts — tab through carriage return (9-13), the
separators 28-31, space, NEL (133), NBSP (160), Ogham space (5760), the
en-quad..hair-space range (8192-8202), line and paragraph separators
(8232, 8233), narrow no-break space (8239), medium mathematical space
(8287) and ideographic space (12288). -/
def isPyWs (c : Char) : Bool :=
  [9, 10, 11, 12, 13, 28, 29, 30, 31, 32, 133, 160, 5760,
   8232, 8233, 8239, 8287, 12288].contains c.toNat
  || (decide (8192 ≤ c.toNat) && decide (c.toNat ≤ 8202))

/-- Python str.strip(): remove whitespace from both ends. -/
def pyStrip (s : String) : String :=
  String.mk (((s.data.dropWhile isPyWs).reverse.dropWhile isPyWs).reverse)

structure HttpResponse where
  statusCode : Nat
  text : String

/-- The Python exceptions the embedded code can raise or wrap, with cause
chaining (raise ... from e) as an explicit field.  typeOrKeyError stands for
the builtin runtime errors (KeyError, TypeError, AttributeError) whose exact
class the claims never inspect. -/
inductive PyError where
| requestsError (response : Option HttpResponse) : PyError
| fileNotFoundError (msg : String) : PyError
| jsonDecodeError : PyError
| typeOrKeyError (msg : String) : PyError
| kimiException (msg : String) (cause : Option PyError) : PyError
| authenticationError (msg : String) (cause : Option PyError) : PyError
| apiError (msg : String) (statusCode : Nat) (responseText : String) (cause : Option PyError) : PyError
| fileUploadError (msg : String) (cause : Option PyError) : PyError

/-- The exception with which the stream generator aborts when a decoded
payload is not a dict and data.get raises AttributeError, wrapped at the
generator boundary (chat.py lines 113-115). -/
def streamAttributeError : PyError :=
  .kimiException "Stream processing failed: AttributeError"
    (some (.typeOrKeyError "AttributeError"))

/-- Typed stream events (kimiai/models.py).  Field values are the raw JSON
values Python would store in the frozen dataclasses. -/
inductive StreamEvent where
| completionChunk (text : Json) : StreamEvent
| searchInfo (hallucination : Json) (searchType : Json) : StreamEvent
| statusUpdate : StreamEvent

/-- The payload of a data: line: the text after the 5-character prefix of the
stripped line, stripped again (chat.py line 86). -/
def streamPayload (line : String) : String :=
  pyStrip (String.mk ((pyStrip line).data.drop 5))

/-- One iteration of the send_message_stream receive loop (chat.py lines
81-108) on one received line.  ok none: the line yields no event; ok (some e):
the line yields e; error: an exception escapes the per-line json handler and
aborts the generator, wrapped at the generator boundary (chat.py lines
113-115) into KimiException.  The only such exception reachable from a
decoded line is the AttributeError from data.get when json.loads returned a
non-dict value. -/
def decodeLine (lineRaw : String) : Except PyError (Option StreamEvent) :=
  let line := pyStrip lineRaw
  if ("data:".data.isPrefixOf line.data) = false then .ok none
  else
    let dataStr := streamPayload lineRaw
    if dataStr.data = [] then .ok none
    else
      match Json.parse dataStr with
      | none => .ok none
      | some data =>
        match data with
        | .obj kvs =>
          match assocGetLast kvs "event" with
          | some (.str ev) =>
            if ev = "cmpl" then
              .ok (some (.completionChunk ((assocGetLast kvs "text").getD (.str ""))))
            else if ev = "search_info" then
              .ok (some (.searchInfo ((assocGetLast kvs "hallucination").getD (.obj []))
                ((assocGetLast kvs "search_type").getD (.str ""))))
            else if ev = "status" then .ok (some .statusUpdate)
            else .ok none
          | _ => .ok none
        | _ => .error streamAttributeError

/-- The full decoding loop of send_message_stream over the received lines,
collecting the yielded events in order until the stream ends or an exception
aborts the generator. -/
def decodeLines : List String → List StreamEvent × Option PyError
| [] => ([], none)
| l :: rest =>
  match decodeLine l with
  | .error e => ([], some e)
  | .ok none => decodeLines rest
  | .ok (some ev) =>
    let step := decodeLines rest
    (ev :: step.1, step.2)

/-- The event a single line contributes when it does not abort the stream. -/
def emittedEvent (l : String) : Option StreamEvent :=
  match decodeLine l with
  | .ok o => o
  | .error _ => none

/-- KimiAIEngine.base_url (engine.py line 47). -/
def engineBaseUrl : String := "https://www.kimi.com/api"

/-- Name-value pair stores used for HTTP headers and cookies. -/
abbrev Pairs := List (String × String)

/-- Replace the value stored under a key, or append it: dict-style update on
one entry. -/
def setPair (ps : Pairs) (k v : String) : Pairs :=
  if ps.any (fun p => p.1 = k) then ps.map (fun p => if p.1 = k then (k, v) else p)
  else ps ++ [(k, v)]

/-- Lookup of the value stored under a key. -/
def getPair (ps : Pairs) (k : String) : Option String :=
  ((ps.filter (fun p => p.1 = k)).head?).map (fun p => p.2)

/-- cookies.update(jar): merge every jar entry into the session cookie
store. -/
def updatePairs (ps : Pairs) (new : Pairs) : Pairs :=
  new.foldl (fun acc p => setPair acc p.1 p.2) ps

/-- The three randomized identifiers _initialize_session draws once per
engine (engine.py lines 61-63), passed in as parameters since the model has
no randomness. -/
structure DeviceIds where
  deviceId : String
  sessionId : String
  trafficId : String

/-- The state of one curl_cffi AsyncSession: its default headers and cookie
store (the parts the embedded code reads or mutates). -/
structure SessionState where
  headers : Pairs
  cookies : Pairs

/-- The mutable attributes of a KimiAIEngine (engine.py lines 47-53); the
constructor arguments other than cookies_path do not influence any claim and
are absorbed into the transport environment. -/
structure EngineState where
  cookiesPath : String
  session : Option SessionState
  isInitialized : Bool

/-- A fresh engine as built by KimiAIEngine.__init__. -/
def freshEngine (path : String) : EngineState :=
  { cookiesPath := path, session := none, isInitialized := false }

/-- What MozillaCookieJar finds at the configured path: no file, an
unparsable file, or a parsed jar of (name, value) cookies.  The Netscape
parser itself is third-party library code, so only its outcome is modelled. -/
inductive FsCookieFile where
| absent : FsCookieFile
| parseFail (msg : String) : FsCookieFile
| jar (cookies : Pairs) : FsCookieFile

/-- The fixed header set of _initialize_session (engine.py lines 65-77). -/
def defaultHeaders (ids : DeviceIds) : Pairs :=
  [("Accept", "application/json, text/plain, */*"),
   ("Accept-Language", "ru-RU,ru;q=0.9,en-US;q=0.8"),
   ("Content-Type", "application/json"),
   ("Origin", "https://www.kimi.com"),
   ("Referer", "https://www.kimi.com/"),
   ("User-Agent", "Mozilla/5.0 (Windows NT 10.0; Win64; x64) AppleWebKit/537.36 (KHTML, like Gecko) Chrome/124.0.0.0 Safari/537.36"),
   ("X-Language", "en-US"),
   ("X-Msh-Platform", "web"),
   ("x-msh-device-id", ids.deviceId),
   ("x-msh-session-id", ids.sessionId),
   ("x-traffic-id", ids.trafficId)]

/-- KimiAIEngine._load_cookies (engine.py lines 90-113).  A missing file
raises AuthenticationError directly; inside the try block, a jar-parse
failure and a missing or empty kimi-auth cookie (the falsy check on line
107) are re-wrapped by the except clause into the outer AuthenticationError
with the original exception chained; on success the Authorization header is
set to the Bearer token. -/
def loadCookies (fs : String → FsCookieFile) (path : String) (sess : SessionState) :
    Except PyError SessionState :=
  match fs path with
  | .absent => .error (.authenticationError ("Cookie file not found at: " ++ path) none)
  | .parseFail m =>
    .error (.authenticationError ("Failed to load or process cookies: " ++ m)
      (some (.typeOrKeyError m)))
  | .jar cs =>
    let sess1 : SessionState := { sess with cookies := updatePairs sess.cookies cs }
    match getPair sess1.cookies "kimi-auth" with
    | none =>
      .error (.authenticationError
        "Failed to load or process cookies: Authentication token kimi-auth not found in cookies file."
        (some (.authenticationError "Authentication token kimi-auth not found in cookies file." none)))
    | some tok =>
      if tok = "" then
        .error (.authenticationError
          "Failed to load or process cookies: Authentication token kimi-auth not found in cookies file."
          (some (.authenticationError "Authentication token kimi-auth not found in cookies file." none)))
      else
        .ok { sess1 with headers := setPair sess1.headers "Authorization" ("Bearer " ++ tok) }

/-- KimiAIEngine._initialize_session (engine.py lines 55-88): no-op when the
initialized flag is set; otherwise build the session with the fixed headers,
then load cookies.  Returns the possibly partially-updated state together
with the raised exception, if any: the session object is assigned before
cookie loading, so it survives a cookie failure while the initialized flag
stays false. -/
def initializeSession (fs : String → FsCookieFile) (ids : DeviceIds) (st : EngineState) :
    EngineState × Option PyError :=
  if st.isInitialized then (st, none)
  else
    let sess0 : SessionState := { headers := defaultHeaders ids, cookies := [] }
    let st1 : EngineState := { st with session := some sess0 }
    match loadCookies fs st1.cookiesPath sess0 with
    | .error e => (st1, some e)
    | .ok sess1 => ({ st1 with session := some sess1, isInitialized := true }, none)

/-- The body of an outbound request. -/
inductive ReqBody where
| jsonBody (j : Json) : ReqBody
| rawBody (bytes : List Nat) : ReqBody
| noBody : ReqBody

/-- One outbound HTTP request as seen by the transport. -/
structure Request where
  method : String
  url : String
  body : ReqBody

/-- Outcome of one transport round trip: a received response, or a
RequestsError carrying the response when one was received. -/
inductive TransportOutcome where
| ok (resp : HttpResponse) : TransportOutcome
| fail (resp : Option HttpResponse) : TransportOutcome

/-- Modelled from the spec: curl_cffi Response.raise_for_status is
third-party code not in this repository; per spec section 4.2 ("on any
transport-level or non-2xx-status error, translate to a uniform APIError")
a response is successful exactly when its status is 2xx. -/
def is2xx (n : Nat) : Bool := decide (200 ≤ n) && decide (n < 300)

/-- The message Python str() would give for a modelled exception (used where
the source interpolates the exception into an f-string; APIError appends its
status as in exceptions.py line 21). -/
def errMessage : PyError → String
| .requestsError _ => "RequestsError"
| .fileNotFoundError m => m
| .jsonDecodeError => "JSONDecodeError"
| .typeOrKeyError m => m
| .kimiException m _ => m
| .authenticationError m _ => m
| .apiError m s _ _ => m ++ " (Status: " ++ toString s ++ ")"
| .fileUploadError m _ => m

/-- KimiAIEngine._make_request (engine.py lines 115-145): lazily initialize
when no session exists (an initialization failure propagates unwrapped, and
no request reaches the transport), then issue the request; a RequestsError
from the transport or from raise_for_status becomes APIError carrying the
status code (0 without a response) and the raw body text ("No response"
without one).  The middle component of the result lists the requests that
actually reached the transport. -/
def makeRequest (fs : String → FsCookieFile) (ids : DeviceIds)
    (env : Request → TransportOutcome) (st : EngineState)
    (method url : String) (body : ReqBody) :
    EngineState × List Request × Except PyError HttpResponse :=
  let initStep : EngineState × Option PyError :=
    match st.session with
    | none => initializeSession fs ids st
    | some _ => (st, none)
  match initStep with
  | (st1, some e) => (st1, [], .error e)
  | (st1, none) =>
    match st1.session with
    | none =>
      (st1, [], .error (.kimiException "An unexpected error occurred: AttributeError"
        (some (.typeOrKeyError "AttributeError"))))
    | some _ =>
      let req : Request := { method := method, url := url, body := body }
      match env req with
      | .ok r =>
        if is2xx r.statusCode then (st1, [req], .ok r)
        else
          (st1, [req], .error (.apiError
            ("API request failed: " ++ errMessage (.requestsError (some r)))
            r.statusCode r.text (some (.requestsError (some r)))))
      | .fail resp =>
        (st1, [req], .error (.apiError
          ("API request failed: " ++ errMessage (.requestsError resp))
          (match resp with | some r => r.statusCode | none => 0)
          (match resp with | some r => r.text | none => "No response")
          (some (.requestsError resp))))

/-- KimiAIEngine.close (engine.py lines 252-258): only acts when a session
exists; clears the session and the initialized flag. -/
def close (st : EngineState) : EngineState :=
  match st.session with
  | some _ => { st with session := none, isInitialized := false }
  | none => st

/-- KimiChat.__init__ (chat.py lines 25-36): the chat id taken from the
create-chat response (Python None when the field was absent), the shared
session reference and the base URL. -/
structure KimiChat where
  chatId : Option Json
  session : Option SessionState
  baseUrl : String

/-- Python str() of a JSON value as interpolated into an f-string URL; the
container cases are abbreviated since only the string and None cases can
reach a chat id. -/
def pyStrJson : Json → String
| .null => "None"
| .bool true => "True"
| .bool false => "False"
| .num m e => toString m ++ (if e = 0 then "" else "e" ++ toString e)
| .nan => "nan"
| .inf => "inf"
| .negInf => "-inf"
| .str s => s
| .arr _ => "(list)"
| .obj _ => "(dict)"

def pyStrOptJson : Option Json → String
| none => "None"
| some j => pyStrJson j

/-- The URL targeted by KimiChat.send_message_stream (chat.py line 61). -/
def streamUrl (c : KimiChat) : String :=
  c.baseUrl ++ "/chat/" ++ pyStrOptJson c.chatId ++ "/completion/stream"

/-- The JSON body of the create-chat request (engine.py lines 158-165). -/
def createChatPayload (name : String) : Json :=
  .obj [("name", .str name), ("born_from", .str "home"), ("kimiplus_id", .str "kimi"),
        ("is_example", .bool false), ("source", .str "web"), ("tags", .arr [])]

/-- KimiAIEngine.create_chat (engine.py lines 147-169): POST the payload,
read the id field with dict.get (None when absent, AttributeError when the
body is not a JSON object) and build the KimiChat. -/
def createChat (fs : String → FsCookieFile) (ids : DeviceIds)
    (env : Request → TransportOutcome) (st : EngineState) (name : String) :
    EngineState × List Request × Except PyError KimiChat :=
  match makeRequest fs ids env st "POST" (engineBaseUrl ++ "/chat")
      (.jsonBody (createChatPayload name)) with
  | (st1, tr, .error e) => (st1, tr, .error e)
  | (st1, tr, .ok resp) =>
    match Json.parse resp.text with
    | none => (st1, tr, .error .jsonDecodeError)
    | some j =>
      match j with
      | .obj kvs =>
        (st1, tr, .ok { chatId := assocGetLast kvs "id",
                        session := st1.session,
                        baseUrl := engineBaseUrl })
      | _ => (st1, tr, .error (.typeOrKeyError "AttributeError"))

/-- models.UploadedFile; the fields hold the raw JSON values Python would
store in the frozen dataclass. -/
structure UploadedFile where
  id : Json
  name : Json
  objectName : Json
  fileType : Json
  meta : Json

/-- The image extension list of engine.py line 196. -/
def imageExts : List String := ["png", "jpg", "jpeg", "webp", "gif"]

/-- Python str.split on a single separator character (never returns an empty
list). -/
def splitOnChar (c : Char) : List Char → List (List Char)
| [] => [[]]
| x :: rest =>
  let r := splitOnChar c rest
  if x = c then [] :: r
  else
    match r with
    | [] => [[x]]
    | h :: t => (x :: h) :: t

def lowerString (s : String) : String := String.mk (s.data.map Char.toLower)

/-- The extension the source computes: the last dot-separated piece of the
file name, lowercased (engine.py line 195; a dotless name is its own
extension under split). -/
def extOf (fileName : String) : String :=
  lowerString (String.mk ((splitOnChar '.' fileName.data).getLastD []))

/-- engine.py lines 195-196: classify the file as image or file from its
extension. -/
def classifyFileType (fileName : String) : String :=
  if extOf fileName ∈ imageExts then "image" else "file"

/-- os.path.basename for POSIX paths: the part after the last slash. -/
def basename (p : String) : String :=
  String.mk ((p.data.reverse.takeWhile (fun c => c ≠ '/')).reverse)

/-- Python d[k] on a parsed JSON value: KeyError on a missing key, TypeError
on a non-object. -/
def pySubscript (j : Json) (k : String) : Except PyError Json :=
  match j with
  | .obj kvs =>
    match assocGetLast kvs k with
    | some v => .ok v
    | none => .error (.typeOrKeyError ("KeyError: " ++ k))
  | _ => .error (.typeOrKeyError "TypeError: value is not subscriptable")

/-- Python d.get(k, default) on a parsed JSON value: AttributeError on a
non-object. -/
def pyGetD (j : Json) (k : String) (dflt : Json) : Except PyError Json :=
  match j with
  | .obj kvs => .ok ((assocGetLast kvs k).getD dflt)
  | _ => .error (.typeOrKeyError "AttributeError")

/-- The try-block body of KimiAIEngine.upload_file (engine.py lines 199-246):
presign through _make_request, raw PUT directly on the session, registration
through _make_request, then the parse trigger for documents.  The engine
state and the list of requests that reached the transport are threaded
through; every early exit carries the exception that escaped that step.  The
parsed-status substring check (lines 233-236) only logs and is omitted. -/
def uploadSteps (fs : String → FsCookieFile) (ids : DeviceIds)
    (env : Request → TransportOutcome) (st : EngineState)
    (fileBytes : List Nat) (fileName fileType : String) :
    EngineState × List Request × Except PyError UploadedFile :=
  match makeRequest fs ids env st "POST" (engineBaseUrl ++ "/pre-sign-url")
      (.jsonBody (.obj [("name", .str fileName), ("action", .str fileType)])) with
  | (st1, tr1, .error e) => (st1, tr1, .error e)
  | (st1, tr1, .ok resp1) =>
    match Json.parse resp1.text with
    | none => (st1, tr1, .error .jsonDecodeError)
    | some preSignData =>
      match pySubscript preSignData "url" with
      | .error e => (st1, tr1, .error e)
      | .ok urlVal =>
        match urlVal with
        | .str putUrl =>
          let putReq : Request := { method := "PUT", url := putUrl, body := .rawBody fileBytes }
          match env putReq with
          | .fail r => (st1, tr1 ++ [putReq], .error (.requestsError r))
          | .ok resp2 =>
            if is2xx resp2.statusCode then
              match pySubscript preSignData "object_name" with
              | .error e => (st1, tr1 ++ [putReq], .error e)
              | .ok objVal =>
                match pyGetD preSignData "file_id" (.str "") with
                | .error e => (st1, tr1 ++ [putReq], .error e)
                | .ok fileIdVal =>
                  match makeRequest fs ids env st1 "POST" (engineBaseUrl ++ "/file")
                      (.jsonBody (.obj [("name", .str fileName), ("object_name", objVal),
                        ("type", .str fileType), ("file_id", fileIdVal)])) with
                  | (st2, tr2, .error e) => (st2, tr1 ++ [putReq] ++ tr2, .error e)
                  | (st2, tr2, .ok resp3) =>
                    match Json.parse resp3.text with
                    | none => (st2, tr1 ++ [putReq] ++ tr2, .error .jsonDecodeError)
                    | some fileData =>
                      match pySubscript fileData "id" with
                      | .error e => (st2, tr1 ++ [putReq] ++ tr2, .error e)
                      | .ok fidVal =>
                        let parseStep : List Request × Option PyError :=
                          if fileType = "file" then
                            let parseReq : Request :=
                              { method := "POST", url := engineBaseUrl ++ "/file/parse_process",
                                body := .jsonBody (.obj [("ids", .arr [fidVal])]) }
                            match env parseReq with
                            | .fail r => ([parseReq], some (.requestsError r))
                            | .ok resp4 =>
                              if is2xx resp4.statusCode then ([parseReq], none)
                              else ([parseReq], some (.requestsError (some resp4)))
                          else ([], none)
                        match parseStep with
                        | (tr4, some e) => (st2, tr1 ++ [putReq] ++ tr2 ++ tr4, .error e)
                        | (tr4, none) =>
                          match pySubscript fileData "name", pySubscript fileData "object_name",
                              pySubscript fileData "type", pyGetD fileData "meta" (.obj []) with
                          | .ok nm, .ok onm, .ok ty, .ok mt =>
                            (st2, tr1 ++ [putReq] ++ tr2 ++ tr4,
                              .ok { id := fidVal, name := nm, objectName := onm,
                                    fileType := ty, meta := mt })
                          | _, _, _, _ =>
                            (st2, tr1 ++ [putReq] ++ tr2 ++ tr4,
                              .error (.typeOrKeyError "KeyError"))
            else (st1, tr1 ++ [putReq], .error (.requestsError (some resp2)))
        | _ => (st1, tr1, .error (.typeOrKeyError "TypeError: url must be str"))

/-- KimiAIEngine.upload_file (engine.py lines 171-250): a missing source file
raises FileNotFoundError before the try block and before any network
activity; otherwise the name is classified and the pipeline runs, with every
escaping exception re-raised as FileUploadError carrying the file path in
its message and the original exception as its cause.  files maps a path to
the raw bytes of an existing local file. -/
def uploadFile (fs : String → FsCookieFile) (ids : DeviceIds)
    (env : Request → TransportOutcome) (files : String → Option (List Nat))
    (st : EngineState) (filePath : String) :
    EngineState × List Request × Except PyError UploadedFile :=
  match files filePath with
  | none => (st, [], .error (.fileNotFoundError ("File not found at path: " ++ filePath)))
  | some bytes =>
    let fileName := basename filePath
    let fileType := classifyFileType fileName
    match uploadSteps fs ids env st bytes fileName fileType with
    | (st1, tr, .ok v) => (st1, tr, .ok v)
    | (st1, tr, .error e) =>
      (st1, tr, .error (.fileUploadError
        ("Failed to upload file " ++ filePath ++ ": " ++ errMessage e) (some e)))

/-- Concrete filesystem with a valid cookie file (used by witnesses). -/
def fsGood : String → FsCookieFile := fun p =>
  if p = "cookies.txt" then .jar [("kimi-auth", "tok123")] else .absent

/-- Concrete transport answering 200 to everything (used by witnesses). -/
def envOk : Request → TransportOutcome := fun _ => .ok { statusCode := 200, text := "ok" }

/-- Concrete transport failing every request without a response. -/
def envFail : Request → TransportOutcome := fun _ => .fail none

/-- Concrete transport answering 401 with a body to everything. -/
def env401 : Request → TransportOutcome := fun _ =>
  .ok { statusCode := 401, text := "unauthorized body" }

/-- Concrete transport: presign succeeds with a presigned URL, the raw PUT
is answered 401. -/
def env401Put : Request → TransportOutcome := fun r =>
  if r.method = "PUT" then .ok { statusCode := 401, text := "unauthorized" }
  else .ok { statusCode := 200,
             text := "\x7b\"url\":\"https://storage.example/put\",\"object_name\":\"obj1\"\x7d" }

/-- Concrete create-chat backend returning an id (used by witnesses). -/
def envChat : Request → TransportOutcome := fun _ =>
  .ok { statusCode := 200, text := "\x7b\"id\":\"abc123\"\x7d" }

/-- Concrete create-chat backend returning a 2xx JSON object without id. -/
def envChatNoId : Request → TransportOutcome := fun _ =>
  .ok { statusCode := 200, text := "\x7b\"ok\":true\x7d" }

/-- Concrete randomized identifiers (used by witnesses). -/
def ids0 : DeviceIds := { deviceId := "1", sessionId := "2", trafficId := "3" }

/-- An engine that has completed initialization against fsGood. -/
def engineReady : EngineState := (initializeSession fsGood ids0 (freshEngine "cookies.txt")).1

/-- Concrete empty filesystem of local files. -/
def filesNone : String → Option (List Nat) := fun _ => none

/-- Concrete filesystem holding one local document file. -/
def files1 : String → Option (List Nat) := fun p =>
  if p = "report.pdf" then some [1, 2] else none

/-- The presign request upload_file issues for a given file path (step 1 of
the pipeline). -/
def presignRequest (filePath : String) : Request :=
  { method := "POST",
    url := engineBaseUrl ++ "/pre-sign-url",
    body := .jsonBody (.obj [("name", .str (basename filePath)),
      ("action", .str (classifyFileType (basename filePath)))]) }

/-- The raw PUT request upload_file issues to a presigned URL (step 2 of the
pipeline). -/
def putRequest (putUrl : String) (bytes : List Nat) : Request :=
  { method := "PUT", url := putUrl, body := .rawBody bytes }

/-- The create-chat request. -/
def chatRequest (name : String) : Request :=
  { method := "POST",
    url := engineBaseUrl ++ "/chat",
    body := .jsonBody (createChatPayload name) }

/-- A received line in one of the four tolerated categories of the amended
claim C2: not a data: line after stripping, blank payload, JSON parse
failure, or a payload parsing to a JSON object whose event discriminator is
absent, non-string, or not one of the three known kinds. -/
def tolerantLine (line : String) : Prop :=
  ("data:".data.isPrefixOf (pyStrip line).data) = false
  ∨ (streamPayload line).data = []
  ∨ Json.parse (streamPayload line) = none
  ∨ (∃ kvs, Json.parse (streamPayload line) = some (.obj kvs) ∧
      ∀ s, assocGetLast kvs "event" = some (.str s) →
        s ≠ "cmpl" ∧ s ≠ "search_info" ∧ s ≠ "status")

/-
Theorems.  The helper lemmas about makeRequest are shared by several
claims; each claim then has exactly one theorem (plus counterexample and
witness where required).
-/

/-- Helper: a request through an already-initialized engine with a 2xx
response succeeds, issuing exactly that request. -/
theorem makeRequest_ok (fs : String → FsCookieFile) (ids : DeviceIds)
    (env : Request → TransportOutcome) (st : EngineState) (sess : SessionState)
    (m u : String) (b : ReqBody) (r : HttpResponse)
    (hs : st.session = some sess)
    (he : env { method := m, url := u, body := b } = .ok r)
    (h2 : is2xx r.statusCode = true) :
    makeRequest fs ids env st m u b = (st, [{ method := m, url := u, body := b }], .ok r) := by
  obtain ⟨path, sessOpt, flag⟩ := st
  simp only at hs
  subst hs
  simp [makeRequest, he, h2]

/-- Helper: a request through an already-initialized engine with a non-2xx
response raises APIError carrying that status and body. -/
theorem makeRequest_badStatus (fs : String → FsCookieFile) (ids : DeviceIds)
    (env : Request → TransportOutcome) (st : EngineState) (sess : SessionState)
    (m u : String) (b : ReqBody) (r : HttpResponse)
    (hs : st.session = some sess)
    (he : env { method := m, url := u, body := b } = .ok r)
    (h2 : is2xx r.statusCode = false) :
    makeRequest fs ids env st m u b = (st, [{ method := m, url := u, body := b }],
      .error (.apiError ("API request failed: " ++ errMessage (.requestsError (some r)))
        r.statusCode r.text (some (.requestsError (some r))))) := by
  obtain ⟨path, sessOpt, flag⟩ := st
  simp only at hs
  subst hs
  simp [makeRequest, he, h2]

/-- Helper: a transport-level failure through an already-initialized engine
raises APIError carrying the optional response status (0 without one) and
body ("No response" without one). -/
theorem makeRequest_transportFail (fs : String → FsCookieFile) (ids : DeviceIds)
    (env : Request → TransportOutcome) (st : EngineState) (sess : SessionState)
    (m u : String) (b : ReqBody) (resp : Option HttpResponse)
    (hs : st.session = some sess)
    (he : env { method := m, url := u, body := b } = .fail resp) :
    makeRequest fs ids env st m u b = (st, [{ method := m, url := u, body := b }],
      .error (.apiError ("API request failed: " ++ errMessage (.requestsError resp))
        (match resp with | some r => r.statusCode | none => 0)
        (match resp with | some r => r.text | none => "No response")
        (some (.requestsError resp)))) := by
  obtain ⟨path, sessOpt, flag⟩ := st
  simp only at hs
  subst hs
  simp [makeRequest, he]
  cases resp <;> simp

/-- Helper: when lazy initialization fails, its error propagates unwrapped
and no request reaches the transport. -/
theorem makeRequest_initFail (fs : String → FsCookieFile) (ids : DeviceIds)
    (env : Request → TransportOutcome) (st : EngineState) (e : PyError)
    (m u : String) (b : ReqBody)
    (hs : st.session = none)
    (hi : (initializeSession fs ids st).2 = some e) :
    makeRequest fs ids env st m u b = ((initializeSession fs ids st).1, [], .error e) := by
  obtain ⟨path, sessOpt, flag⟩ := st
  simp at hs
  subst hs
  rcases hI : initializeSession fs ids (EngineState.mk path none flag) with ⟨st1, err⟩
  rw [hI] at hi
  simp at hi
  subst hi
  simp [makeRequest, hI]

/-- C1: the stream decoder is order-preserving — the three sample lines
yield exactly CompletionChunk A, CompletionChunk B, StatusUpdate in that
order, and in general any line sequence on which no line aborts the
generator yields exactly the per-line events in line order, with no
reordering, buffering or deduplication. -/
theorem c1_stream_order_preserving :
    decodeLines
      ["data:\x7b\"event\":\"cmpl\",\"text\":\"A\"\x7d",
       "data:\x7b\"event\":\"cmpl\",\"text\":\"B\"\x7d",
       "data:\x7b\"event\":\"status\"\x7d"]
      = ([.completionChunk (.str "A"), .completionChunk (.str "B"), .statusUpdate], none)
    ∧ ∀ lines : List String, (∀ l ∈ lines, ∃ o, decodeLine l = .ok o) →
        decodeLines lines = (lines.filterMap emittedEvent, none) := by
  constructor
  · rfl
  · intro lines h
    induction lines with
    | nil => rfl
    | cons l rest ih =>
      obtain ⟨o, ho⟩ := h l (List.mem_cons_self l rest)
      have hrest := ih (fun x hx => h x (List.mem_cons_of_mem l hx))
      have hev : emittedEvent l = o := by simp only [emittedEvent, ho]
      cases o with
      | none => simp [decodeLines, ho, hrest, List.filterMap_cons, hev]
      | some ev => simp [decodeLines, ho, hrest, List.filterMap_cons, hev]

/-- C1 witness: the order-preservation part applied to a concrete singleton
line sequence. -/
theorem c1_stream_order_preserving_witness :
    decodeLines ["data:\x7b\"event\":\"status\"\x7d"] = ([StreamEvent.statusUpdate], none) := by
  have h := c1_stream_order_preserving.2 ["data:\x7b\"event\":\"status\"\x7d"]
    (by
      intro l hl
      simp only [List.mem_singleton] at hl
      subst hl
      exact ⟨some .statusUpdate, rfl⟩)
  exact h.trans (by rfl)

/-- C2 fails as stated: the line data:42 parses as JSON but is not an
object, so data.get raises AttributeError, the generator aborts with
KimiException and the following well-formed cmpl line is never decoded —
a single bad line can abort the stream. -/
theorem c2_counterexample :
    decodeLines ["data:42", "data:\x7b\"event\":\"cmpl\",\"text\":\"A\"\x7d"]
      = ([], some (.kimiException "Stream processing failed: AttributeError"
          (some (.typeOrKeyError "AttributeError"))))
    ∧ decodeLines ["data:\x7b\"event\":\"cmpl\",\"text\":\"A\"\x7d"]
      = ([.completionChunk (.str "A")], none) :=
  ⟨rfl, rfl⟩

/-- C2 (amended): a line that is not data:-prefixed, or has a blank payload,
or whose payload fails JSON parsing, or whose payload parses to a JSON
object with an absent or unrecognized event discriminator, emits zero
events and leaves the decoding of all subsequent lines unaffected; a data:
line whose non-blank payload parses to a non-object value (such as NaN or
42) instead aborts the stream with the wrapped AttributeError, and no
subsequent line is decoded. -/
theorem c2_tolerated_lines_skipped (line : String) (rest : List String) :
    (tolerantLine line →
      decodeLine line = .ok none ∧ decodeLines (line :: rest) = decodeLines rest)
    ∧ (("data:".data.isPrefixOf (pyStrip line).data) = true →
        (streamPayload line).data ≠ [] →
        ∀ j, Json.parse (streamPayload line) = some j → j.isObj = false →
          decodeLine line = .error streamAttributeError
          ∧ decodeLines (line :: rest) = ([], some streamAttributeError)) := by
  constructor
  · intro h
    have hd : decodeLine line = .ok none := by
      unfold decodeLine
      by_cases hpre : ("data:".data.isPrefixOf (pyStrip line).data) = false
      · simp [hpre]
      · have hpre2 : ("data:".data.isPrefixOf (pyStrip line).data) = true := by
          revert hpre
          cases ("data:".data.isPrefixOf (pyStrip line).data) <;> simp
        rcases h with h | h | h | ⟨kvs, hp, hev⟩
        · exact absurd h hpre
        · simp [hpre2, h]
        · by_cases hemp : (streamPayload line).data = []
          · simp [hpre2, hemp]
          · simp [hpre2, hemp, h]
        · by_cases hemp : (streamPayload line).data = []
          · simp [hpre2, hemp]
          · rcases hevq : assocGetLast kvs "event" with _ | v
            · simp [hpre2, hemp, hp, hevq]
            · cases v with
              | str s =>
                obtain ⟨h1, h2, h3⟩ := hev s hevq
                simp [hpre2, hemp, hp, hevq, h1, h2, h3]
              | null => simp [hpre2, hemp, hp, hevq]
              | bool b => simp [hpre2, hemp, hp, hevq]
              | num mm ee => simp [hpre2, hemp, hp, hevq]
              | nan => simp [hpre2, hemp, hp, hevq]
              | inf => simp [hpre2, hemp, hp, hevq]
              | negInf => simp [hpre2, hemp, hp, hevq]
              | arr a => simp [hpre2, hemp, hp, hevq]
              | obj o => simp [hpre2, hemp, hp, hevq]
    exact ⟨hd, by simp [decodeLines, hd]⟩
  · intro hpre hemp j hj hobj
    have hd : decodeLine line = .error streamAttributeError := by
      unfold decodeLine
      cases j with
      | obj kvs => simp [Json.isObj] at hobj
      | null => simp [hpre, hemp, hj]
      | bool b => simp [hpre, hemp, hj]
      | num mm ee => simp [hpre, hemp, hj]
      | nan => simp [hpre, hemp, hj]
      | inf => simp [hpre, hemp, hj]
      | negInf => simp [hpre, hemp, hj]
      | str s => simp [hpre, hemp, hj]
      | arr a => simp [hpre, hemp, hj]
    exact ⟨hd, by simp [decodeLines, hd]⟩

/-- C2 witness: the tolerance leg at a concrete non-data line followed by a
status line, and the abort leg at the concrete line data:NaN, whose payload
json.loads accepts as a float. -/
theorem c2_tolerated_lines_skipped_witness :
    (decodeLine "hello" = .ok none
      ∧ decodeLines ["hello", "data:\x7b\"event\":\"status\"\x7d"]
          = decodeLines ["data:\x7b\"event\":\"status\"\x7d"])
    ∧ (decodeLine "data:NaN" = .error streamAttributeError
      ∧ decodeLines ["data:NaN", "data:\x7b\"event\":\"status\"\x7d"]
          = ([], some streamAttributeError)) :=
  ⟨(c2_tolerated_lines_skipped "hello" ["data:\x7b\"event\":\"status\"\x7d"]).1 (Or.inl rfl),
   (c2_tolerated_lines_skipped "data:NaN" ["data:\x7b\"event\":\"status\"\x7d"]).2
     rfl (by decide) Json.nan rfl rfl⟩

/-- Helper: the freshly-set Authorization header is retrievable (the default
header set contains no Authorization entry, so setPair appends it). -/
theorem getPair_setPair_defaultHeaders (ids : DeviceIds) (v : String) :
    getPair (setPair (defaultHeaders ids) "Authorization" v) "Authorization" = some v := by
  simp [defaultHeaders, setPair, getPair]

/-- Helper: initialization on an uninitialized engine against a jar holding
a non-empty kimi-auth cookie succeeds, installing the Bearer header. -/
theorem initializeSession_ok (fs : String → FsCookieFile) (ids : DeviceIds)
    (st : EngineState) (cs : Pairs) (tok : String)
    (hflag : st.isInitialized = false)
    (hfs : fs st.cookiesPath = .jar cs)
    (htok : getPair (updatePairs [] cs) "kimi-auth" = some tok)
    (hne : tok ≠ "") :
    initializeSession fs ids st =
      ({ st with
          session := some { headers := setPair (defaultHeaders ids) "Authorization" ("Bearer " ++ tok),
                            cookies := updatePairs [] cs },
          isInitialized := true }, none) := by
  obtain ⟨path, sessOpt, flag⟩ := st
  simp only at hflag hfs
  subst hflag
  simp [initializeSession, loadCookies, hfs, htok, hne]

/-- C3 fails as stated: after close, a request issued through the engine
does not fail fast with any closed error — here it transparently
re-initializes against the cookie file and succeeds with the transport
response. -/
theorem c3_counterexample :
    (makeRequest fsGood ids0 envOk (close engineReady) "POST"
        (engineBaseUrl ++ "/chat") .noBody).2.2
      = .ok { statusCode := 200, text := "ok" } := rfl

/-- C3 (amended): close returns the engine to the uninitialized state
(session cleared, initialized flag false); a subsequently attempted request
does not fail fast with a closed error but transparently re-initializes a
fresh session, reloading cookies, and proceeds normally. -/
theorem c3_close_reinitializes (st : EngineState) {sess : SessionState}
    (fs : String → FsCookieFile) (ids : DeviceIds) (env : Request → TransportOutcome)
    {cs : Pairs} {tok : String} {r : HttpResponse} (m u : String) (b : ReqBody)
    (hs : st.session = some sess)
    (hfs : fs st.cookiesPath = .jar cs)
    (htok : getPair (updatePairs [] cs) "kimi-auth" = some tok)
    (hne : tok ≠ "")
    (henv : env { method := m, url := u, body := b } = .ok r)
    (h2 : is2xx r.statusCode = true) :
    (close st).session = none ∧ (close st).isInitialized = false
    ∧ (makeRequest fs ids env (close st) m u b).2.2 = .ok r
    ∧ (makeRequest fs ids env (close st) m u b).1.isInitialized = true := by
  obtain ⟨path, sessOpt, flag⟩ := st
  simp only at hs hfs
  subst hs
  have hclose : close (EngineState.mk path (some sess) flag) = EngineState.mk path none false := rfl
  have hinit := initializeSession_ok fs ids (EngineState.mk path none false) cs tok rfl hfs htok hne
  have hmk : makeRequest fs ids env (EngineState.mk path none false) m u b
      = (EngineState.mk path
          (some { headers := setPair (defaultHeaders ids) "Authorization" ("Bearer " ++ tok),
                  cookies := updatePairs [] cs }) true,
         [{ method := m, url := u, body := b }], .ok r) := by
    simp [makeRequest, hinit, henv, h2]
  refine ⟨by rw [hclose], by rw [hclose], by rw [hclose, hmk], by rw [hclose, hmk]⟩

/-- C3 witness: the amended behavior at a concrete closed engine, cookie
file and transport. -/
theorem c3_close_reinitializes_witness :
    (close engineReady).session = none ∧ (close engineReady).isInitialized = false
    ∧ (makeRequest fsGood ids0 envOk (close engineReady) "POST" "u" .noBody).2.2
        = .ok { statusCode := 200, text := "ok" }
    ∧ (makeRequest fsGood ids0 envOk (close engineReady) "POST" "u" .noBody).1.isInitialized = true :=
  c3_close_reinitializes engineReady fsGood ids0 envOk "POST" "u" .noBody
    rfl rfl rfl (by decide) rfl rfl

/-- C4: initialization against a cookie jar holding a non-empty kimi-auth
cookie succeeds and sets the Authorization header to Bearer token; a missing
cookie file, or a jar without kimi-auth, raises AuthenticationError from any
request path before any request reaches the transport. -/
theorem c4_cookie_auth (fs : String → FsCookieFile) (ids : DeviceIds) (path : String)
    (env : Request → TransportOutcome) (m u : String) (b : ReqBody) :
    (∀ cs tok, fs path = .jar cs →
      getPair (updatePairs [] cs) "kimi-auth" = some tok → tok ≠ "" →
      ∃ sess, (initializeSession fs ids (freshEngine path)).2 = none
        ∧ (initializeSession fs ids (freshEngine path)).1.session = some sess
        ∧ getPair sess.headers "Authorization" = some ("Bearer " ++ tok))
    ∧ (fs path = .absent →
        (makeRequest fs ids env (freshEngine path) m u b).2.1 = []
        ∧ (makeRequest fs ids env (freshEngine path) m u b).2.2
            = .error (.authenticationError ("Cookie file not found at: " ++ path) none))
    ∧ (∀ cs, fs path = .jar cs → getPair (updatePairs [] cs) "kimi-auth" = none →
        (makeRequest fs ids env (freshEngine path) m u b).2.1 = []
        ∧ ∃ em c, (makeRequest fs ids env (freshEngine path) m u b).2.2
            = .error (.authenticationError em c)) := by
  refine ⟨?_, ?_, ?_⟩
  · intro cs tok hfs htok hne
    have hinit := initializeSession_ok fs ids (freshEngine path) cs tok rfl hfs htok hne
    refine ⟨_, by rw [hinit], by rw [hinit], getPair_setPair_defaultHeaders ids ("Bearer " ++ tok)⟩
  · intro hfs
    have hinit : initializeSession fs ids (freshEngine path)
        = (EngineState.mk path (some { headers := defaultHeaders ids, cookies := [] }) false,
           some (.authenticationError ("Cookie file not found at: " ++ path) none)) := by
      simp [initializeSession, freshEngine, loadCookies, hfs]
    have hmk := makeRequest_initFail fs ids env (freshEngine path) _ m u b rfl
      (by rw [hinit])
    rw [hmk]
    exact ⟨rfl, rfl⟩
  · intro cs hfs htok
    have hinit : initializeSession fs ids (freshEngine path)
        = (EngineState.mk path (some { headers := defaultHeaders ids, cookies := [] }) false,
           some (.authenticationError
             "Failed to load or process cookies: Authentication token kimi-auth not found in cookies file."
             (some (.authenticationError
               "Authentication token kimi-auth not found in cookies file." none)))) := by
      simp [initializeSession, freshEngine, loadCookies, hfs, htok]
    have hmk := makeRequest_initFail fs ids env (freshEngine path) _ m u b rfl
      (by rw [hinit])
    rw [hmk]
    exact ⟨rfl, _, _, rfl⟩

/-- C4 witness: the success case at a concrete valid cookie file, and the
missing-file case at a concrete absent path. -/
theorem c4_cookie_auth_witness :
    (∃ sess, (initializeSession fsGood ids0 (freshEngine "cookies.txt")).2 = none
      ∧ (initializeSession fsGood ids0 (freshEngine "cookies.txt")).1.session = some sess
      ∧ getPair sess.headers "Authorization" = some ("Bearer " ++ "tok123"))
    ∧ ((makeRequest fsGood ids0 envOk (freshEngine "missing.txt") "GET" "u" .noBody).2.1 = []
      ∧ (makeRequest fsGood ids0 envOk (freshEngine "missing.txt") "GET" "u" .noBody).2.2
          = .error (.authenticationError ("Cookie file not found at: " ++ "missing.txt") none)) :=
  ⟨(c4_cookie_auth fsGood ids0 "cookies.txt" envOk "GET" "u" .noBody).1 _ _ rfl rfl (by decide),
   (c4_cookie_auth fsGood ids0 "missing.txt" envOk "GET" "u" .noBody).2.1 rfl⟩

/-- C5: upload error policy — a missing source file short-circuits with
FileNotFoundError before any request reaches the transport, and every
exception escaping any pipeline step is re-raised as FileUploadError
carrying the file path in its message and the original exception as its
cause. -/
theorem c5_upload_error_policy (fs : String → FsCookieFile) (ids : DeviceIds)
    (env : Request → TransportOutcome) (files : String → Option (List Nat))
    (st : EngineState) (filePath : String) :
    (files filePath = none →
      uploadFile fs ids env files st filePath
        = (st, [], .error (.fileNotFoundError ("File not found at path: " ++ filePath))))
    ∧ ∀ bytes e, files filePath = some bytes →
        (uploadFile fs ids env files st filePath).2.2 = .error e →
        ∃ cause, e = .fileUploadError
          ("Failed to upload file " ++ filePath ++ ": " ++ errMessage cause) (some cause) := by
  constructor
  · intro h
    simp [uploadFile, h]
  · intro bytes e hf he
    simp only [uploadFile, hf] at he
    rcases hU : uploadSteps fs ids env st bytes (basename filePath)
        (classifyFileType (basename filePath)) with ⟨st1, tr, res⟩
    rw [hU] at he
    cases res with
    | ok v => simp at he
    | error c =>
      simp at he
      exact ⟨c, he.symm⟩

/-- C5 witness: the short-circuit at a concrete missing file, and the
uniform wrapping at a concrete transport failure during presign. -/
theorem c5_upload_error_policy_witness :
    (uploadFile fsGood ids0 envFail filesNone engineReady "x.txt"
        = (engineReady, [], .error (.fileNotFoundError ("File not found at path: " ++ "x.txt"))))
    ∧ ∃ cause, (uploadFile fsGood ids0 envFail files1 engineReady "report.pdf").2.2
        = .error (.fileUploadError
            ("Failed to upload file " ++ "report.pdf" ++ ": " ++ errMessage cause) (some cause)) := by
  refine ⟨(c5_upload_error_policy fsGood ids0 envFail filesNone engineReady "x.txt").1 rfl, ?_⟩
  obtain ⟨c, hc⟩ := (c5_upload_error_policy fsGood ids0 envFail files1 engineReady "report.pdf").2
    [1, 2] _ rfl rfl
  refine ⟨c, ?_⟩
  rw [← hc]
  exact rfl

/-- C6: when the raw-bytes PUT to the presigned URL is answered with a
non-2xx status, upload_file raises FileUploadError wrapping the transport
error of that PUT, and no registration request (POST base/file) is ever
issued. -/
theorem c6_put_failure_stops_pipeline (fs : String → FsCookieFile) (ids : DeviceIds)
    (env : Request → TransportOutcome) (files : String → Option (List Nat))
    (st : EngineState) (sess : SessionState) (filePath : String) (bytes : List Nat)
    (presignResp : HttpResponse) (preJson : Json) (putUrl : String) (putResp : HttpResponse)
    (hsess : st.session = some sess)
    (hfile : files filePath = some bytes)
    (hpre : env (presignRequest filePath) = .ok presignResp)
    (h2 : is2xx presignResp.statusCode = true)
    (hjson : Json.parse presignResp.text = some preJson)
    (hurl : pySubscript preJson "url" = .ok (.str putUrl))
    (hput : env (putRequest putUrl bytes) = .ok putResp)
    (hbad : is2xx putResp.statusCode = false) :
    (∃ msg, (uploadFile fs ids env files st filePath).2.2
        = .error (.fileUploadError msg (some (.requestsError (some putResp)))))
    ∧ ∀ r ∈ (uploadFile fs ids env files st filePath).2.1,
        ¬ (r.method = "POST" ∧ r.url = engineBaseUrl ++ "/file") := by
  simp only [presignRequest] at hpre
  simp only [putRequest] at hput
  have hmk := makeRequest_ok fs ids env st sess "POST" (engineBaseUrl ++ "/pre-sign-url")
    (.jsonBody (.obj [("name", .str (basename filePath)),
      ("action", .str (classifyFileType (basename filePath)))])) presignResp hsess hpre h2
  have hsteps : uploadSteps fs ids env st bytes (basename filePath)
      (classifyFileType (basename filePath))
      = (st, [presignRequest filePath, putRequest putUrl bytes],
         .error (.requestsError (some putResp))) := by
    simp [uploadSteps, presignRequest, putRequest, hmk, hjson, hurl, hput, hbad]
  have hup : uploadFile fs ids env files st filePath
      = (st, [presignRequest filePath, putRequest putUrl bytes],
         .error (.fileUploadError
           ("Failed to upload file " ++ filePath ++ ": "
             ++ errMessage (.requestsError (some putResp)))
           (some (.requestsError (some putResp))))) := by
    rw [uploadFile, hfile]
    simp [hsteps]
  refine ⟨⟨_, by rw [hup]⟩, ?_⟩
  rw [hup]
  intro r hr
  simp only [List.mem_cons, List.not_mem_nil, or_false] at hr
  rcases hr with rfl | rfl
  · rintro ⟨-, hu2⟩
    rw [show (presignRequest filePath).url = engineBaseUrl ++ "/pre-sign-url" from rfl] at hu2
    exact absurd hu2 (by decide)
  · rintro ⟨hm, -⟩
    rw [show (putRequest putUrl bytes).method = "PUT" from rfl] at hm
    exact absurd hm (by decide)

/-- C6 witness: the abort at a concrete transport answering 401 to the PUT,
and the absence of any registration request in the issued trace. -/
theorem c6_put_failure_stops_pipeline_witness :
    (∃ msg, (uploadFile fsGood ids0 env401Put files1 engineReady "report.pdf").2.2
        = .error (.fileUploadError msg
            (some (.requestsError (some { statusCode := 401, text := "unauthorized" })))))
    ∧ ∀ r ∈ (uploadFile fsGood ids0 env401Put files1 engineReady "report.pdf").2.1,
        ¬ (r.method = "POST" ∧ r.url = engineBaseUrl ++ "/file") :=
  c6_put_failure_stops_pipeline fsGood ids0 env401Put files1 engineReady _ "report.pdf" [1, 2]
    _ _ _ _ rfl rfl rfl rfl rfl rfl rfl rfl

/-- C7 fails as stated: the raw-bytes PUT is an HTTP call made by the
engine, yet when it is answered 401 the engine raises FileUploadError
wrapping the raw transport error — no APIError with status_code 401 is
raised for this call. -/
theorem c7_counterexample :
    (uploadFile fsGood ids0 env401Put files1 engineReady "report.pdf").2.2
      = .error (.fileUploadError "Failed to upload file report.pdf: RequestsError"
          (some (.requestsError (some { statusCode := 401, text := "unauthorized" })))) := rfl

/-- C7 (amended): every HTTP call issued through the engine request wrapper
_make_request that receives a non-2xx response (including 401) raises
APIError whose status_code equals the numeric response status (0 when no
response was received) and whose response_text preserves the raw body
verbatim; the raw-upload PUT and parse-trigger calls bypass the wrapper and
surface as FileUploadError instead. -/
theorem c7_api_error_translation (fs : String → FsCookieFile) (ids : DeviceIds)
    (env : Request → TransportOutcome) (st : EngineState) (sess : SessionState)
    (m u : String) (b : ReqBody)
    (hs : st.session = some sess) :
    (∀ r, env { method := m, url := u, body := b } = .ok r → is2xx r.statusCode = false →
      (makeRequest fs ids env st m u b).2.2
        = .error (.apiError ("API request failed: " ++ errMessage (.requestsError (some r)))
            r.statusCode r.text (some (.requestsError (some r)))))
    ∧ (∀ r, env { method := m, url := u, body := b } = .fail (some r) →
      (makeRequest fs ids env st m u b).2.2
        = .error (.apiError ("API request failed: " ++ errMessage (.requestsError (some r)))
            r.statusCode r.text (some (.requestsError (some r)))))
    ∧ (env { method := m, url := u, body := b } = .fail none →
      (makeRequest fs ids env st m u b).2.2
        = .error (.apiError ("API request failed: " ++ errMessage (.requestsError none))
            0 "No response" (some (.requestsError none)))) := by
  refine ⟨?_, ?_, ?_⟩
  · intro r he h2
    rw [makeRequest_badStatus fs ids env st sess m u b r hs he h2]
  · intro r he
    rw [makeRequest_transportFail fs ids env st sess m u b (some r) hs he]
  · intro he
    rw [makeRequest_transportFail fs ids env st sess m u b none hs he]

/-- C7 witness: the wrapper translation at a concrete 401 response with its
body preserved verbatim. -/
theorem c7_api_error_translation_witness :
    (makeRequest fsGood ids0 env401 engineReady "GET" "u" .noBody).2.2
      = .error (.apiError ("API request failed: " ++ errMessage (.requestsError
          (some { statusCode := 401, text := "unauthorized body" })))
          401 "unauthorized body"
          (some (.requestsError (some { statusCode := 401, text := "unauthorized body" })))) :=
  (c7_api_error_translation fsGood ids0 env401 engineReady _ "GET" "u" .noBody rfl).1
    { statusCode := 401, text := "unauthorized body" } rfl rfl

/-- C8: upload classification by lowercased last-dot-component extension:
type image exactly for the five image extensions, type file otherwise;
photo.JPG classifies as image and report.pdf as file. -/
theorem c8_extension_classification (name : String) :
    (extOf name ∈ imageExts → classifyFileType name = "image")
    ∧ (extOf name ∉ imageExts → classifyFileType name = "file")
    ∧ classifyFileType "photo.JPG" = "image"
    ∧ classifyFileType "report.pdf" = "file" := by
  refine ⟨?_, ?_, rfl, rfl⟩
  · intro h
    simp [classifyFileType, h]
  · intro h
    simp [classifyFileType, h]

/-- C8 witness: the classification rule applied at concrete names with
upper-case extensions. -/
theorem c8_extension_classification_witness :
    classifyFileType "photo.JPG" = "image" ∧ classifyFileType "archive.GIF" = "image" :=
  ⟨(c8_extension_classification "photo.JPG").2.2.1,
   (c8_extension_classification "archive.GIF").1 (by decide)⟩

/-- C9: create_chat binds the returned session to the id field of the
backend response: a 2xx response whose JSON object contains id yields a
KimiChat whose chatId is exactly that value. -/
theorem c9_create_chat_id (fs : String → FsCookieFile) (ids : DeviceIds)
    (env : Request → TransportOutcome) (st : EngineState) (sess : SessionState)
    (name : String) (resp : HttpResponse) (kvs : List (String × Json)) (v : Json)
    (hs : st.session = some sess)
    (henv : env (chatRequest name) = .ok resp)
    (h2 : is2xx resp.statusCode = true)
    (hjson : Json.parse resp.text = some (.obj kvs))
    (hid : assocGetLast kvs "id" = some v) :
    ∃ c : KimiChat, (createChat fs ids env st name).2.2 = .ok c ∧ c.chatId = some v := by
  simp only [chatRequest] at henv
  have hmk := makeRequest_ok fs ids env st sess "POST" (engineBaseUrl ++ "/chat")
    (.jsonBody (createChatPayload name)) resp hs henv h2
  refine ⟨{ chatId := assocGetLast kvs "id", session := st.session,
            baseUrl := engineBaseUrl }, ?_, hid⟩
  simp [createChat, hmk, hjson]

/-- C9 witness: a concrete backend answering with id abc123 yields a chat
whose chatId is abc123. -/
theorem c9_create_chat_id_witness :
    ∃ c : KimiChat, (createChat fsGood ids0 envChat engineReady "New Chat").2.2 = .ok c
      ∧ c.chatId = some (.str "abc123") :=
  c9_create_chat_id fsGood ids0 envChat engineReady _ "New Chat" _ _ _ rfl rfl rfl rfl rfl

/-- C10: a 2xx JSON object response without an id field does not raise:
create_chat returns a KimiChat whose chatId is None and whose streaming URL
is built from that null identifier, embedding the literal None. -/
theorem c10_missing_id_none_url (fs : String → FsCookieFile) (ids : DeviceIds)
    (env : Request → TransportOutcome) (st : EngineState) (sess : SessionState)
    (name : String) (resp : HttpResponse) (kvs : List (String × Json))
    (hs : st.session = some sess)
    (henv : env (chatRequest name) = .ok resp)
    (h2 : is2xx resp.statusCode = true)
    (hjson : Json.parse resp.text = some (.obj kvs))
    (hid : assocGetLast kvs "id" = none) :
    ∃ c : KimiChat, (createChat fs ids env st name).2.2 = .ok c ∧ c.chatId = none
      ∧ streamUrl c = engineBaseUrl ++ "/chat/None/completion/stream" := by
  simp only [chatRequest] at henv
  have hmk := makeRequest_ok fs ids env st sess "POST" (engineBaseUrl ++ "/chat")
    (.jsonBody (createChatPayload name)) resp hs henv h2
  refine ⟨{ chatId := assocGetLast kvs "id", session := st.session,
            baseUrl := engineBaseUrl }, ?_, hid, ?_⟩
  · simp [createChat, hmk, hjson]
  · simp only [streamUrl]
    rw [hid]
    rfl

/-- C10 witness: a concrete backend answering a 2xx object without id
yields a chat with chatId None and the None streaming URL. -/
theorem c10_missing_id_none_url_witness :
    ∃ c : KimiChat, (createChat fsGood ids0 envChatNoId engineReady "New Chat").2.2 = .ok c
      ∧ c.chatId = none
      ∧ streamUrl c = engineBaseUrl ++ "/chat/None/completion/stream" :=
  c10_missing_id_none_url fsGood ids0 envChatNoId engineReady _ "New Chat" _ _
    rfl rfl rfl rfl rfl

end KimiSpec
